import Mathlib

/-!
Verification of the MedAI backend (`src/app.py`).

The repository is a small Flask application.  The claims concern the
`/api/ai-doctor` handler (`ai_doctor`, lines 76-154) and the
`/api/specialists` handler (`get_specialists`, lines 157-166).

The embedding below is shallow and pure:
  * JSON values are the inductive `Json`; Python truthiness of a parsed
    JSON value (`if not data:`) is `Json.isTruthy`.
  * The result of `request.get_json()` at line 108 is passed in as
    `BodyParse`, with three outcomes: a successfully parsed value;
    `noData`, when `get_json` returns `None` (missing body or non-JSON
    content type, in the Flask versions that return `None` there), which
    the code answers with the `"No JSON data provided"` 400 (line 110);
    and `raised msg`, when `get_json` raises `BadRequest` (an unparsable
    body under a JSON content type) — that raise happens inside the `try`,
    so the generic `except` at line 146 answers 500, not 400.
  * The module-level `model` reference (set once at startup, line 39-53)
    is passed in as a Boolean `modelInit` (`True` iff a model object was
    initialized), since `ai_doctor` only tests its truthiness (line 116).
  * The external Gemini call `model.generate_content(...)` (lines 123-129)
    is a parameter `provider : ProviderResult`: either a normal return
    carrying `getattr(response, "text", None)` as an `Option String`
    (a falsy/absent `response` is folded into `none`, since line 131
    treats them identically), or a raised exception carrying `str(e)`.
  * `datetime.now().isoformat()` is a parameter `now : String`.
  * The handler's outcome records the HTTP status, the JSON body handed to
    `jsonify`, and the list of provider calls performed during the request
    (each with the exact prompt string and generation configuration), so
    that "the provider is never invoked" is `calls = []`.
  * Python `AttributeError` messages raised by `data.get` / `.strip()` on
    wrong types (lines 112, caught at line 146) are modelled by
    `attrErrorMsg`; the modelled text omits CPython's quote characters but
    keeps the type name and attribute name.
-/

/-- Parsed JSON values, as produced by `request.get_json()`.  Numbers are
rationals, covering both Python ints and the floats appearing in the file
(the specialist ratings). -/
inductive Json where
  | null : Json
  | bool (b : Bool) : Json
  | num (q : Rat) : Json
  | str (s : String) : Json
  | arr (xs : List Json) : Json
  | obj (kvs : List (String × Json)) : Json

/-- Python truthiness of a parsed JSON value: `None`, `False`, `0`, `""`,
`[]` and `\x7b\x7d` are falsy (the `if not data:` test at line 109). -/
def Json.isTruthy : Json → Bool
  | .null => false
  | .bool b => b
  | .num q => q != 0
  | .str s => !s.isEmpty
  | .arr xs => !xs.isEmpty
  | .obj kvs => !kvs.isEmpty

/-- Whether a JSON value is a string (so that `.strip()` exists on it). -/
def Json.isStr : Json → Bool
  | .str _ => true
  | _ => false

/-- Whether a JSON value is an object (so that `.get` exists on it). -/
def Json.isObj : Json → Bool
  | .obj _ => true
  | _ => false

/-- The Python type name of a parsed JSON value, as it appears in an
`AttributeError` message. -/
def Json.pyTypeName : Json → String
  | .null => "NoneType"
  | .bool _ => "bool"
  | .num q => if q.den = 1 then "int" else "float"
  | .str _ => "str"
  | .arr _ => "list"
  | .obj _ => "dict"

/-- `d.get(k, dflt)` on a Python dict parsed from JSON. -/
def dictGet (kvs : List (String × Json)) (k : String) (dflt : Json) : Json :=
  match kvs.lookup k with
  | some v => v
  | none => dflt

/-- Characters removed by Python `str.strip()` (the ASCII whitespace set;
the file only ever meets these). -/
def isPyWhitespace (c : Char) : Bool :=
  c = ' ' || c = '\t' || c = '\n' || c = '\r' || c = '\x0b' || c = '\x0c'

/-- Python `s.strip()`: remove leading and trailing whitespace. -/
def pyStrip (s : String) : String :=
  String.mk (((s.toList.dropWhile isPyWhitespace).reverse.dropWhile
    isPyWhitespace).reverse)

/-- The message of the `AttributeError` raised when `.get` / `.strip()` is
looked up on a value of the wrong type (modelled without CPython's quote
characters). -/
def attrErrorMsg (v : Json) (fld : String) : String :=
  v.pyTypeName ++ " object has no attribute " ++ fld

/-- The HTTP methods routed to `ai_doctor` (line 76). -/
inductive Method where
  | POST : Method
  | OPTIONS : Method

/-- The outcome of `request.get_json()` at line 108: a parsed JSON value;
`None` (missing body, or a non-JSON content type in the Flask versions
that return `None` there); or a raised `BadRequest` carrying `str(e)`
(a body under a JSON content type that fails to parse — Flask raises in
every version here, and the raise lands in the handler's `except`). -/
inductive BodyParse where
  | parsed (v : Json) : BodyParse
  | noData : BodyParse
  | raised (msg : String) : BodyParse

/-- The generation configuration passed to `generate_content`
(lines 125-128). -/
structure GenerationBudget where
  max_output_tokens : Nat
  temperature : Rat
deriving DecidableEq, Repr

/-- One call to the external provider: the prompt string and the
generation configuration it was given. -/
structure ProviderCall where
  prompt : String
  config : GenerationBudget
deriving DecidableEq, Repr

/-- Behaviour of the external provider on a call: a normal return carrying
`getattr(response, "text", None)`, or a raised exception carrying
`str(e)`. -/
inductive ProviderResult where
  | ok (text? : Option String) : ProviderResult
  | exn (msg : String) : ProviderResult

/-- Outcome of one request to `ai_doctor`: HTTP status, JSON body, and the
provider calls made while handling it. -/
structure AiOutcome where
  status : Nat
  body : Json
  calls : List ProviderCall

/-- The system prompt defined at lines 96-105 of `app.py`. -/
def system_prompt : String :=
  "You are MedAI Pro, an AI health assistant. Provide CONCISE, PRACTICAL advice.\n\nResponse Format:\n1. **Symptoms Analysis**: 2–3 lines about likely cause.\n2. **Possible Causes**: 2–3 bullet points.\n3. **Home Care**: 2–3 remedies.\n4. **Medicines**: Include examples (Paracetamol, Ibuprofen, etc.).\n5. **When to See Doctor**: When to seek professional help.\n\n⚠️ Keep total response <150 words. Always end with: “⚠️ This is NOT professional medical advice.”"

/-- The fixed generation budget of lines 126-127: 500 output tokens,
temperature 0.7. -/
def fixedBudget : GenerationBudget :=
  { max_output_tokens := 500, temperature := 7/10 }

/-- The body built by the generic exception handler at lines 148-151:
`Server error:` plus the exception text cut to its first 100 characters
(`str(e)[:100]`), with `success` false. -/
def serverErrorBody (msg : String) : Json :=
  Json.obj [("error", Json.str ("Server error: " ++ msg.take 100)),
            ("success", Json.bool false)]

/-- Lines 123-144: perform the provider call and shape the response.
On a normal return, success iff `getattr(response, "text", None)` is a
non-empty string (line 131); both shapes are returned with status 200
(line 144).  On an exception, the generic handler returns 500
(lines 146-154). -/
def callProvider (full_message : String) (provider : ProviderResult)
    (now : String) : AiOutcome :=
  let call : ProviderCall := { prompt := full_message, config := fixedBudget }
  match provider with
  | .exn msg => { status := 500, body := serverErrorBody msg, calls := [call] }
  | .ok text? =>
    if text?.getD "" = "" then
      { status := 200
        body := Json.obj [("success", Json.bool false),
                          ("error", Json.str "Empty response from AI model.")]
        calls := [call] }
    else
      { status := 200
        body := Json.obj [("success", Json.bool true),
                          ("response", Json.str (text?.getD "")),
                          ("timestamp", Json.str now)]
        calls := [call] }

/-- Lines 113-129 applied to the already stripped user input: empty input
is a 400 (line 114), a missing model is a 500 (line 117), otherwise the
prompt `system_prompt + "\n\nUser Symptom: " + user_input` (line 119) is
sent to the provider. -/
def handleInput (user_input : String) (modelInit : Bool)
    (provider : ProviderResult) (now : String) : AiOutcome :=
  if user_input = "" then
    { status := 400, body := Json.obj [("error", Json.str "Message cannot be empty")],
      calls := [] }
  else if modelInit = false then
    { status := 500
      body := Json.obj [("error", Json.str "AI model not initialized."),
                        ("success", Json.bool false)]
      calls := [] }
  else
    callProvider (system_prompt ++ "\n\nUser Symptom: " ++ user_input) provider now

/-- Line 112, `data.get("message", "").strip()`, on the value found for
`"message"`: a non-string raises `AttributeError`, caught by the generic
handler (line 146) as a 500. -/
def handleMessage (mval : Json) (modelInit : Bool) (provider : ProviderResult)
    (now : String) : AiOutcome :=
  match mval with
  | .str s => handleInput (pyStrip s) modelInit provider now
  | v => { status := 500, body := serverErrorBody (attrErrorMsg v "strip"),
           calls := [] }

/-- Lines 112-154 on a truthy parsed body: a non-dict has no `.get`, so it
raises `AttributeError`, caught by the generic handler as a 500. -/
def handleData (data : Json) (modelInit : Bool) (provider : ProviderResult)
    (now : String) : AiOutcome :=
  match data with
  | .obj kvs => handleMessage (dictGet kvs "message" (Json.str "")) modelInit provider now
  | v => { status := 500, body := serverErrorBody (attrErrorMsg v "get"),
           calls := [] }

/-- The `/api/ai-doctor` handler, lines 76-154.  `body` is the outcome of
`request.get_json()` at line 108 (a raise there is caught by the generic
`except` at line 146), `modelInit` the truthiness of the module-level
`model`, `provider` the behaviour of the external call, `now` the
timestamp. -/
def ai_doctor (method : Method) (body : BodyParse) (modelInit : Bool)
    (provider : ProviderResult) (now : String) : AiOutcome :=
  match method with
  | .OPTIONS =>
    { status := 200, body := Json.obj [("status", Json.str "CORS preflight OK")],
      calls := [] }
  | .POST =>
    match body with
    | .raised msg =>
      { status := 500, body := serverErrorBody msg, calls := [] }
    | .noData =>
      { status := 400, body := Json.obj [("error", Json.str "No JSON data provided")],
        calls := [] }
    | .parsed data =>
      if data.isTruthy = false then
        { status := 400, body := Json.obj [("error", Json.str "No JSON data provided")],
          calls := [] }
      else
        handleData data modelInit provider now

/-- One record of the static specialists list, lines 159-165. -/
structure Specialist where
  id : Nat
  name : String
  specialty : String
  rating : Rat
deriving DecidableEq, Repr

/-- The static list of lines 159-165. -/
def specialists : List Specialist :=
  [ { id := 1, name := "Dr. Rajesh Kumar", specialty := "Cardiology", rating := 48/10 },
    { id := 2, name := "Dr. Priya Sharma", specialty := "Dermatology", rating := 47/10 },
    { id := 3, name := "Dr. Amit Patel", specialty := "Neurology", rating := 49/10 },
    { id := 4, name := "Dr. Anjali Singh", specialty := "Pediatrics", rating := 46/10 },
    { id := 5, name := "Dr. Vikram Gupta", specialty := "Orthopedics", rating := 48/10 } ]

/-- The `/api/specialists` handler, lines 157-166: status and response
payload.  It takes no input and reads no state. -/
def get_specialists : Nat × (Bool × List Specialist) :=
  (200, (true, specialists))

/-! ## Helper lemmas -/

/-- `str(e)[:100]` keeps at most 100 characters. -/
theorem string_take_length_le (s : String) (n : Nat) : (s.take n).length ≤ n := by
  show (s.take n).data.length ≤ n
  rw [String.data_take]
  simp [List.length_take]

/-- `callProvider` always returns status 500 or 200, never 400. -/
theorem callProvider_status (m : String) (p : ProviderResult) (now : String) :
    (callProvider m p now).status = 500 ∨ (callProvider m p now).status = 200 := by
  cases p with
  | exn msg => exact Or.inl rfl
  | ok t? =>
    refine Or.inr ?_
    simp only [callProvider]
    split <;> rfl

/-- `callProvider` records exactly one provider call. -/
theorem callProvider_calls (m : String) (p : ProviderResult) (now : String) :
    (callProvider m p now).calls = [{ prompt := m, config := fixedBudget }] := by
  cases p with
  | exn msg => rfl
  | ok t? =>
    simp only [callProvider]
    split <;> rfl

/-- If `handleInput` answers 400, it made no provider call. -/
theorem handleInput_400_calls (u : String) (mi : Bool) (p : ProviderResult)
    (now : String) (h : (handleInput u mi p now).status = 400) :
    (handleInput u mi p now).calls = [] := by
  by_cases hu : u = ""
  · simp [handleInput, hu]
  · by_cases hmi : mi = false
    · simp [handleInput, hu, hmi] at h
    · exfalso
      simp only [handleInput, if_neg hu, if_neg hmi] at h
      rcases callProvider_status (system_prompt ++ "\n\nUser Symptom: " ++ u) p now with
        h5 | h2 <;> omega

/-- If `handleMessage` answers 400, it made no provider call. -/
theorem handleMessage_400_calls (mval : Json) (mi : Bool) (p : ProviderResult)
    (now : String) (h : (handleMessage mval mi p now).status = 400) :
    (handleMessage mval mi p now).calls = [] := by
  cases mval with
  | str s => exact handleInput_400_calls (pyStrip s) mi p now h
  | null => rfl
  | bool b => rfl
  | num q => rfl
  | arr xs => rfl
  | obj kvs => rfl

/-- If `handleData` answers 400, it made no provider call. -/
theorem handleData_400_calls (data : Json) (mi : Bool) (p : ProviderResult)
    (now : String) (h : (handleData data mi p now).status = 400) :
    (handleData data mi p now).calls = [] := by
  cases data with
  | obj kvs => exact handleMessage_400_calls _ mi p now h
  | null => rfl
  | bool b => rfl
  | num q => rfl
  | str s => rfl
  | arr xs => rfl

/-! ## Claims -/

/-- C1 counterexample: the claim fails on the unparsable-body path.  A
body under a JSON content type that fails to parse makes
`request.get_json()` raise `BadRequest` at line 108, inside the `try`;
the generic `except` at line 146 answers HTTP 500, not 400. -/
theorem c1_counterexample :
    (ai_doctor Method.POST
        (BodyParse.raised "400 Bad Request: Failed to decode JSON object")
        true (ProviderResult.ok (some "x")) "t").status = 500 ∧
    ¬ (ai_doctor Method.POST
        (BodyParse.raised "400 Bad Request: Failed to decode JSON object")
        true (ProviderResult.ok (some "x")) "t").status = 400 :=
  ⟨rfl, by decide⟩

/-- C1 (amended): a POST for which `request.get_json()` yields no data
(missing body, or non-JSON content type where Flask returns `None`) is
answered HTTP 400 with the error message `No JSON data provided`; a POST
for which `request.get_json()` raises `BadRequest` (a body under a JSON
content type that is not parsable) is answered HTTP 500 by the generic
exception handler.  Neither path calls the provider. -/
theorem c1_get_json_outcomes (modelInit : Bool) (provider : ProviderResult)
    (now : String) (msg : String) :
    ai_doctor Method.POST BodyParse.noData modelInit provider now =
      { status := 400
        body := Json.obj [("error", Json.str "No JSON data provided")]
        calls := [] } ∧
    ai_doctor Method.POST (BodyParse.raised msg) modelInit provider now =
      { status := 500, body := serverErrorBody msg, calls := [] } :=
  ⟨rfl, rfl⟩

/-- C2: every POST whose JSON body carries a `message` that is empty after
stripping whitespace is answered HTTP 400 with the error message
`Message cannot be empty`, and the external provider is never called. -/
theorem c2_empty_message_400 (kvs : List (String × Json)) (s : String)
    (modelInit : Bool) (provider : ProviderResult) (now : String)
    (hne : kvs ≠ [])
    (hm : dictGet kvs "message" (Json.str "") = Json.str s)
    (hs : pyStrip s = "") :
    ai_doctor Method.POST (BodyParse.parsed (Json.obj kvs)) modelInit provider now =
      { status := 400
        body := Json.obj [("error", Json.str "Message cannot be empty")]
        calls := [] } := by
  cases kvs with
  | nil => exact absurd rfl hne
  | cons p l =>
    simp [ai_doctor, Json.isTruthy, handleData, hm, handleMessage, handleInput, hs]

theorem c2_empty_message_400_witness :
    ai_doctor Method.POST (BodyParse.parsed (Json.obj [("message", Json.str "   ")])) true
        (ProviderResult.ok (some "hello")) "2024-01-01T00:00:00" =
      { status := 400
        body := Json.obj [("error", Json.str "Message cannot be empty")]
        calls := [] } :=
  c2_empty_message_400 [("message", Json.str "   ")] "   " true
    (ProviderResult.ok (some "hello")) "2024-01-01T00:00:00"
    (by simp) (by rfl) (by rfl)

/-- C7: every OPTIONS (preflight) request is answered HTTP 200 with the
fixed body `status: CORS preflight OK`, with no provider call, whatever
the body, model state and provider behaviour. -/
theorem c7_preflight_constant (body : BodyParse) (modelInit : Bool)
    (provider : ProviderResult) (now : String) :
    ai_doctor Method.OPTIONS body modelInit provider now =
      { status := 200
        body := Json.obj [("status", Json.str "CORS preflight OK")]
        calls := [] } := rfl

/-- C8: the specialists endpoint answers HTTP 200 with success and exactly
the 5 fixed records, each rating lying in `[4.6, 4.9]`; the handler is a
constant, so the list is the same on every call. -/
theorem c8_specialists :
    get_specialists.1 = 200 ∧
    get_specialists.2.1 = true ∧
    get_specialists.2.2 = specialists ∧
    specialists.length = 5 ∧
    specialists.all
      (fun sp => decide ((46 : Rat)/10 ≤ sp.rating ∧ sp.rating ≤ 49/10)) = true := by
  refine ⟨rfl, rfl, rfl, rfl, ?_⟩
  simp only [specialists, List.all_cons, List.all_nil, Bool.and_eq_true,
    decide_eq_true_eq]
  norm_num

/-- On a truthy dict body whose `message` value is a string with non-empty
strip, and with a model initialized, `ai_doctor` reduces to the provider
call on the assembled prompt. -/
theorem ai_doctor_valid_eq_callProvider (kvs : List (String × Json))
    (s : String) (provider : ProviderResult) (now : String)
    (hne : kvs ≠ [])
    (hm : dictGet kvs "message" (Json.str "") = Json.str s)
    (hs : pyStrip s ≠ "") :
    ai_doctor Method.POST (BodyParse.parsed (Json.obj kvs)) true provider now =
      callProvider (system_prompt ++ "\n\nUser Symptom: " ++ pyStrip s)
        provider now := by
  cases kvs with
  | nil => exact absurd rfl hne
  | cons p l =>
    simp [ai_doctor, Json.isTruthy, handleData, hm, handleMessage, handleInput, hs]

set_option maxRecDepth 16384 in
/-- C3 counterexample: the user's input is NOT forwarded verbatim — the
code strips surrounding whitespace first (line 112), so for the message
`" hi "` the prompt sent is not the template followed by `" hi "`. -/
theorem c3_counterexample :
    ¬ (ai_doctor Method.POST (BodyParse.parsed (Json.obj [("message", Json.str " hi ")]))
        true (ProviderResult.ok (some "ok")) "t").calls =
      [{ prompt := system_prompt ++ "\n\nUser Symptom: " ++ " hi "
         config := fixedBudget }] := by
  decide

/-- C3 (amended): for every valid POST with a message that is non-empty
after stripping whitespace and an initialized model, the endpoint sends to
the provider exactly one call, whose prompt is the fixed system-prompt
template followed by `User Symptom:` and the whitespace-stripped user
input, with the fixed budget of 500 output tokens and temperature 0.7. -/
theorem c3_prompt_sent (kvs : List (String × Json)) (s : String)
    (provider : ProviderResult) (now : String)
    (hne : kvs ≠ [])
    (hm : dictGet kvs "message" (Json.str "") = Json.str s)
    (hs : pyStrip s ≠ "") :
    (ai_doctor Method.POST (BodyParse.parsed (Json.obj kvs)) true provider now).calls =
      [{ prompt := system_prompt ++ "\n\nUser Symptom: " ++ pyStrip s
         config := { max_output_tokens := 500, temperature := 7/10 } }] := by
  rw [ai_doctor_valid_eq_callProvider kvs s provider now hne hm hs]
  exact callProvider_calls _ provider now

theorem c3_prompt_sent_witness :
    (ai_doctor Method.POST (BodyParse.parsed (Json.obj [("message", Json.str "fever")]))
        true (ProviderResult.ok (some "advice")) "t").calls =
      [{ prompt := system_prompt ++ "\n\nUser Symptom: " ++ pyStrip "fever"
         config := { max_output_tokens := 500, temperature := 7/10 } }] :=
  c3_prompt_sent [("message", Json.str "fever")] "fever"
    (ProviderResult.ok (some "advice")) "t" (by simp) rfl (by decide)

/-- C4: when the provider call returns without raising, the reply is
HTTP 200; the body carries success with the provider's text and the
timestamp exactly when that text is non-empty, and success-false with an
explanatory error message exactly when it is empty (still at 200). -/
theorem c4_provider_return_200 (kvs : List (String × Json)) (s : String)
    (t? : Option String) (now : String)
    (hne : kvs ≠ [])
    (hm : dictGet kvs "message" (Json.str "") = Json.str s)
    (hs : pyStrip s ≠ "") :
    (ai_doctor Method.POST (BodyParse.parsed (Json.obj kvs)) true
        (ProviderResult.ok t?) now).status = 200 ∧
    (t?.getD "" ≠ "" →
      (ai_doctor Method.POST (BodyParse.parsed (Json.obj kvs)) true
          (ProviderResult.ok t?) now).body =
        Json.obj [("success", Json.bool true),
                  ("response", Json.str (t?.getD "")),
                  ("timestamp", Json.str now)]) ∧
    (t?.getD "" = "" →
      (ai_doctor Method.POST (BodyParse.parsed (Json.obj kvs)) true
          (ProviderResult.ok t?) now).body =
        Json.obj [("success", Json.bool false),
                  ("error", Json.str "Empty response from AI model.")]) := by
  rw [ai_doctor_valid_eq_callProvider kvs s (ProviderResult.ok t?) now hne hm hs]
  by_cases ht : t?.getD "" = ""
  · exact ⟨by simp [callProvider, ht], fun hc => absurd ht hc,
      fun _ => by simp [callProvider, ht]⟩
  · exact ⟨by simp [callProvider, ht], fun _ => by simp [callProvider, ht],
      fun hc => absurd hc ht⟩

theorem c4_provider_return_200_witness :
    (ai_doctor Method.POST (BodyParse.parsed (Json.obj [("message", Json.str "fever")]))
        true (ProviderResult.ok (some "advice")) "t").status = 200 ∧
    ((some "advice").getD "" ≠ "" →
      (ai_doctor Method.POST (BodyParse.parsed (Json.obj [("message", Json.str "fever")]))
          true (ProviderResult.ok (some "advice")) "t").body =
        Json.obj [("success", Json.bool true),
                  ("response", Json.str ((some "advice").getD "")),
                  ("timestamp", Json.str "t")]) ∧
    ((some "advice").getD "" = "" →
      (ai_doctor Method.POST (BodyParse.parsed (Json.obj [("message", Json.str "fever")]))
          true (ProviderResult.ok (some "advice")) "t").body =
        Json.obj [("success", Json.bool false),
                  ("error", Json.str "Empty response from AI model.")]) :=
  c4_provider_return_200 [("message", Json.str "fever")] "fever"
    (some "advice") "t" (by simp) rfl (by decide)

/-- C5: when the provider call raises, the reply is HTTP 500 with
success false and the error message `Server error:` followed by at most
the first 100 characters of the exception text. -/
theorem c5_provider_exn_500 (kvs : List (String × Json)) (s msg : String)
    (now : String)
    (hne : kvs ≠ [])
    (hm : dictGet kvs "message" (Json.str "") = Json.str s)
    (hs : pyStrip s ≠ "") :
    ai_doctor Method.POST (BodyParse.parsed (Json.obj kvs)) true
        (ProviderResult.exn msg) now =
      { status := 500
        body := Json.obj [("error", Json.str ("Server error: " ++ msg.take 100)),
                          ("success", Json.bool false)]
        calls := [{ prompt := system_prompt ++ "\n\nUser Symptom: " ++ pyStrip s
                    config := fixedBudget }] } ∧
    (msg.take 100).length ≤ 100 :=
  ⟨by rw [ai_doctor_valid_eq_callProvider kvs s (ProviderResult.exn msg) now hne hm hs]
      rfl,
   string_take_length_le msg 100⟩

theorem c5_provider_exn_500_witness :
    ai_doctor Method.POST (BodyParse.parsed (Json.obj [("message", Json.str "fever")]))
        true (ProviderResult.exn "API key not valid") "t" =
      { status := 500
        body := Json.obj [("error",
                  Json.str ("Server error: " ++ ("API key not valid").take 100)),
                          ("success", Json.bool false)]
        calls := [{ prompt := system_prompt ++ "\n\nUser Symptom: " ++ pyStrip "fever"
                    config := fixedBudget }] } ∧
    (("API key not valid").take 100).length ≤ 100 :=
  c5_provider_exn_500 [("message", Json.str "fever")] "fever"
    "API key not valid" "t" (by simp) rfl (by decide)

/-- C6: a valid non-empty message with no model initialized is answered
HTTP 500 with success false and the error message
`AI model not initialized.`, and the provider is not called. -/
theorem c6_no_model_500 (kvs : List (String × Json)) (s : String)
    (provider : ProviderResult) (now : String)
    (hne : kvs ≠ [])
    (hm : dictGet kvs "message" (Json.str "") = Json.str s)
    (hs : pyStrip s ≠ "") :
    ai_doctor Method.POST (BodyParse.parsed (Json.obj kvs)) false provider now =
      { status := 500
        body := Json.obj [("error", Json.str "AI model not initialized."),
                          ("success", Json.bool false)]
        calls := [] } := by
  cases kvs with
  | nil => exact absurd rfl hne
  | cons p l =>
    simp [ai_doctor, Json.isTruthy, handleData, hm, handleMessage, handleInput, hs]

theorem c6_no_model_500_witness :
    ai_doctor Method.POST (BodyParse.parsed (Json.obj [("message", Json.str "fever")]))
        false (ProviderResult.ok (some "advice")) "t" =
      { status := 500
        body := Json.obj [("error", Json.str "AI model not initialized."),
                          ("success", Json.bool false)]
        calls := [] } :=
  c6_no_model_500 [("message", Json.str "fever")] "fever"
    (ProviderResult.ok (some "advice")) "t" (by simp) rfl (by decide)

/-- C9: a POST whose JSON body carries a non-string `message` (for example
a number) is answered HTTP 500 — the `AttributeError` from `.strip()` is
caught by the generic handler — with success false, not a 400. -/
theorem c9_nonstring_message_500 (kvs : List (String × Json)) (v : Json)
    (modelInit : Bool) (provider : ProviderResult) (now : String)
    (hne : kvs ≠ [])
    (hm : dictGet kvs "message" (Json.str "") = v)
    (hv : v.isStr = false) :
    ai_doctor Method.POST (BodyParse.parsed (Json.obj kvs)) modelInit provider now =
      { status := 500
        body := serverErrorBody (attrErrorMsg v "strip")
        calls := [] } := by
  cases kvs with
  | nil => exact absurd rfl hne
  | cons p l =>
    have hred : ai_doctor Method.POST (BodyParse.parsed (Json.obj (p :: l))) modelInit
        provider now = handleMessage v modelInit provider now := by
      simp [ai_doctor, Json.isTruthy, handleData, hm]
    rw [hred]
    cases v with
    | str s => simp [Json.isStr] at hv
    | null => rfl
    | bool b => rfl
    | num q => rfl
    | arr xs => rfl
    | obj kvs2 => rfl

theorem c9_nonstring_message_500_witness :
    ai_doctor Method.POST (BodyParse.parsed (Json.obj [("message", Json.num 5)])) true
        (ProviderResult.ok (some "x")) "t" =
      { status := 500
        body := serverErrorBody (attrErrorMsg (Json.num 5) "strip")
        calls := [] } :=
  c9_nonstring_message_500 [("message", Json.num 5)] (Json.num 5) true
    (ProviderResult.ok (some "x")) "t" (by simp) rfl rfl

/-- C10: whenever `ai_doctor` answers HTTP 400, the external provider was
never invoked: validation completes before the provider call is reached
(the handler, being a pure function of its inputs here, changes no process
state). -/
theorem c10_400_no_provider_call (method : Method) (body : BodyParse)
    (modelInit : Bool) (provider : ProviderResult) (now : String)
    (h : (ai_doctor method body modelInit provider now).status = 400) :
    (ai_doctor method body modelInit provider now).calls = [] := by
  cases method with
  | OPTIONS => rfl
  | POST =>
    cases body with
    | noData => rfl
    | raised msg => rfl
    | parsed data =>
      by_cases ht : data.isTruthy = false
      · simp [ai_doctor, ht]
      · have hred : ai_doctor Method.POST (BodyParse.parsed data) modelInit
            provider now = handleData data modelInit provider now := by
          simp [ai_doctor, ht]
        rw [hred] at h ⊢
        exact handleData_400_calls data modelInit provider now h

theorem c10_400_no_provider_call_witness :
    (ai_doctor Method.POST BodyParse.noData true
      (ProviderResult.ok (some "x")) "t").calls = [] :=
  c10_400_no_provider_call Method.POST BodyParse.noData true
    (ProviderResult.ok (some "x")) "t" rfl
